import Mathlib

/-!
Verification of the universal-tool-framework menu navigator.

The definitions below are a shallow embedding of the JavaScript sources:
  * `src/systemUtils.js`      — `getSystemArchitecture`
  * `src/toolExecutor.js`     — `ToolExecutor.executeTool` (path resolution,
    child-process lifecycle, error reporting)
  * `src/menuController.js`   — the navigation stack and its operations
  * `src/arrowMenuEngine.js`  — menu-item lookup and interactive display
  * `src/uiHandler.js`        — the architecture-picker result mapping
  * `src/applicationController.js` — `handleUserChoice` and the numeric
    input loop body of `showCurrentMenu`

JavaScript idioms are made explicit: `undefined` becomes `Option.none`,
the `a || b` operator on strings becomes `jsOrElse` (a string is truthy
iff it is non-empty), and `parseInt` becomes `jsParseInt`.
-/

namespace Utf

/-! ## JavaScript primitives -/

/-- The whitespace characters trimmed by `String.prototype.trim` (ASCII part). -/
def isJsSpace (c : Char) : Bool :=
  c = ' ' || c = '\t' || c = '\n' || c = '\r' || c = Char.ofNat 11 || c = Char.ofNat 12

/-- `String.prototype.trim`: strip leading and trailing whitespace. -/
def jsTrim (s : String) : String :=
  String.mk (((s.toList.dropWhile isJsSpace).reverse.dropWhile isJsSpace).reverse)

/-- `String.prototype.toLowerCase`, character by character (the command
tokens it is applied to are ASCII). -/
def jsToLower (s : String) : String :=
  String.mk (s.toList.map Char.toLower)

/-- Property lookup on a JS object with string keys, in declaration order;
`none` models `undefined`. -/
def jsLookup (m : List (String × String)) (k : String) : Option String :=
  (m.find? (fun p => p.1 == k)).map (fun p => p.2)

/-- JS truthiness of a string-or-undefined value: `undefined` and `""` are falsy. -/
def jsTruthy : Option String → Bool
  | some s => !(s == "")
  | none => false

/-- The JS `a || b` operator on string-or-undefined values. -/
def jsOrElse (a b : Option String) : Option String :=
  if jsTruthy a then a else b

/-- Decimal digit value of a character, if any. -/
def decDigit (c : Char) : Option Nat :=
  if '0' ≤ c ∧ c ≤ '9' then some (c.toNat - 48) else none

/-- Hexadecimal digit value of a character, if any. -/
def hexDigit (c : Char) : Option Nat :=
  if '0' ≤ c ∧ c ≤ '9' then some (c.toNat - 48)
  else if 'a' ≤ c ∧ c ≤ 'f' then some (c.toNat - 87)
  else if 'A' ≤ c ∧ c ≤ 'F' then some (c.toNat - 55)
  else none

/-- Accumulate the longest prefix of digits; `none` when no digit was read. -/
def parseDigits (digit : Char → Option Nat) (base : Nat) :
    List Char → Option Nat → Option Nat
  | [], acc => acc
  | c :: cs, acc =>
    match digit c with
    | some d => parseDigits digit base cs (some ((acc.getD 0) * base + d))
    | none => acc

/-- `parseInt(s)` with no radix argument: skip whitespace, optional sign,
`0x`/`0X` switches to base 16, then the longest digit prefix; `none` models
`NaN` (no digit read). -/
def jsParseInt (s : String) : Option Int :=
  let cs := s.toList.dropWhile isJsSpace
  let signed : Int × List Char :=
    match cs with
    | '-' :: t => (-1, t)
    | '+' :: t => (1, t)
    | _ => (1, cs)
  let body : List Char × Bool :=
    match signed.2 with
    | '0' :: c :: t => if c = 'x' ∨ c = 'X' then (t, true) else ('0' :: c :: t, false)
    | l => (l, false)
  let digits :=
    if body.2 then parseDigits hexDigit 16 body.1 none
    else parseDigits decDigit 10 body.1 none
  digits.map (fun n => signed.1 * (n : Int))

/-! ## Data model

A tool path is either a single string or a mapping from architecture tags to
strings (a JS object, kept in declaration order). -/

/-- `path` field of an executable menu item: a string or an
architecture-tag-to-string mapping. -/
abbrev ToolPath := Sum String (List (String × String))

/-- A menu item as found in `menu.json`: selection key `id`, a `type` string
switched on by `handleUserChoice`, the submenu id (present iff the type is
`submenu`), and the tool path (present iff the type is `executable`). -/
structure MenuItem where
  id : Int
  itemType : String
  submenu : Option String := none
  path : Option ToolPath := none
deriving DecidableEq

/-- A menu definition: title, parent, ordered items. -/
structure Menu where
  title : String := ""
  parent : Option String := none
  items : List MenuItem := []
deriving DecidableEq

/-- The menu tree: `config.menu`, a JS object mapping menu ids to menus. -/
abbrev MenuTree := List (String × Menu)

/-- `config.menu[menuId]`; `none` models `undefined`. -/
def treeLookup (t : MenuTree) (menuId : String) : Option Menu :=
  (t.find? (fun p => p.1 == menuId)).map (fun p => p.2)

/-- `ArrowMenuEngine.getMenuItem` (arrowMenuEngine.js lines 99-106):
`menu.items.find(item => item.id === choice) || null`; `none` when the menu is
missing or no item matches. `MenuController.getMenuItem` delegates to an
engine with this same lookup. -/
def getMenuItem (t : MenuTree) (menuId : String) (choice : Int) : Option MenuItem :=
  match treeLookup t menuId with
  | none => none
  | some menu => menu.items.find? (fun it => it.id == choice)

/-- `ArrowMenuEngine.displayInteractiveMenu` (arrowMenuEngine.js lines 70-88),
abstracting from I/O: a missing menu id is reported and yields `none` (the JS
function prints the menu-missing error and returns `null`); otherwise the
item list is offered for selection. -/
def displayInteractiveMenu (t : MenuTree) (menuId : String) : Option (List MenuItem) :=
  match treeLookup t menuId with
  | none => none
  | some menu => some menu.items

/-! ## systemUtils.js -/

/-- `getSystemArchitecture` (systemUtils.js lines 17-31), with the value of
`os.arch()` as the argument. -/
def getSystemArchitecture (arch : String) : String :=
  if arch = "arm64" ∨ arch = "aarch64" then "ARM64"
  else if arch = "arm" ∨ arch = "armv7l" then "ARM32"
  else if arch = "ia32" then "X86"
  else if arch = "x64" ∨ arch = "amd64" then "X86_64"
  else "Unknown Architecture(未知系统架构)"

/-! ## menuController.js — the navigation stack

The JS `menuStack` array is modelled as a `List String` in the same order:
index 0 is the bottom of the stack, the last element is the current menu. -/

/-- `MenuController.setCurrentMenu` (menuController.js lines 43-45):
`this.menuStack.push(menuId)`, unconditionally. -/
def setCurrentMenu (s : List String) (menuId : String) : List String :=
  s ++ [menuId]

/-- `MenuController.getCurrentMenu` (menuController.js lines 32-34):
`this.menuStack[this.menuStack.length - 1]`; `none` models the `undefined`
read on an empty array. -/
def getCurrentMenu (s : List String) : Option String :=
  s.getLast?

/-- `MenuController.goBack` (menuController.js lines 54-60): pop when the
stack holds more than one element; the Boolean is the JS return value. -/
def goBack (s : List String) : Bool × List String :=
  if 1 < s.length then (true, s.dropLast) else (false, s)

/-- `MenuController.goToMainMenu` (menuController.js lines 67-69):
`this.menuStack = ["main"]`. -/
def goToMainMenu : List String :=
  ["main"]

/-- `MenuController.handleNavigationCommand` (menuController.js lines
143-162): `b` pops (or, already at the root, resets to the root and
re-renders), `m` resets to the root, `p` and anything else are not handled
here. The Boolean is the JS return value, the list the stack afterwards. -/
def handleNavigationCommand (command : String) (s : List String) : Bool × List String :=
  if jsToLower command = "b" then
    match goBack s with
    | (true, popped) => (true, popped)
    | (false, _) => (true, goToMainMenu)
  else if jsToLower command = "m" then
    (true, goToMainMenu)
  else if jsToLower command = "p" then
    (false, s)
  else
    (false, s)

/-- The operations that mutate the navigation stack anywhere in the sources:
push (`setCurrentMenu`), back (`goBack`), home (`goToMainMenu`). -/
inductive NavOp where
  | push (menuId : String)
  | back
  | home
deriving DecidableEq

/-- Apply one navigation operation to the stack. -/
def navStep (s : List String) : NavOp → List String
  | NavOp.push menuId => setCurrentMenu s menuId
  | NavOp.back => (goBack s).2
  | NavOp.home => goToMainMenu

/-- Run a sequence of navigation operations from the initial stack
`["main"]` set up by the `MenuController` constructor (menuController.js
line 24). -/
def runNavOps (ops : List NavOp) : List String :=
  ops.foldl navStep ["main"]

/-! ## toolExecutor.js -/

/-- Path resolution in `ToolExecutor.executeTool` (toolExecutor.js lines
31-36): a plain string is used verbatim; for a mapping,
`toolPath[architecture] || toolPath[X86_64] || Object.values(toolPath)[0]`.
`none` models an `undefined` resolved path (empty mapping). -/
def resolvePath (toolPath : ToolPath) (architecture : String) : Option String :=
  match toolPath with
  | Sum.inl s => some s
  | Sum.inr m =>
    jsOrElse (jsLookup m architecture)
      (jsOrElse (jsLookup m "X86_64") (m.head?.map (fun p => p.2)))

/-- Outcome of the spawned child process: it either closed with an exit code
or emitted a spawn error (missing binary, permission denied). -/
inductive SpawnResult where
  | exited (code : Int)
  | spawnError (msg : String)
deriving DecidableEq

/-- The `await`ed child-process promise in `executeTool` (toolExecutor.js
lines 52-66): a close event logs the exit status and resolves; an error
event logs and rejects (modelled by `Except.error`). -/
def childLifecycle (res : SpawnResult) : Except String String :=
  match res with
  | SpawnResult.exited code =>
    if code = 0 then Except.ok "命令执行完成"
    else Except.ok ("命令执行结束，返回码：" ++ toString code)
  | SpawnResult.spawnError msg =>
    Except.error ("执行命令时出错：" ++ msg)

/-- The acknowledgement prompt `UIHandler.waitForEnterReturnMenu` prints
before the menu redraws (uiHandler.js line 125). -/
def waitEnterPrompt : String :=
  "按Enter键返回菜单..."

/-- `ToolExecutor.executeTool` (toolExecutor.js lines 25-73) as a function of
the tool path, the `arch` argument (`none` models `null`), the system
architecture `getSystemArchitecture()` would return, and the child-process
outcome. The result is the list of console messages; the whole body is
wrapped in try/catch and always falls through to the Enter prompt, so the
function is total and never propagates an error (`Except.ok` throughout). -/
def executeTool (toolPath : ToolPath) (arch : Option String) (sysArch : String)
    (res : SpawnResult) : Except String (List String) :=
  let architecture :=
    match arch with
    | some a => if a = "" then sysArch else a
    | none => sysArch
  let resolved := resolvePath toolPath architecture
  let runningMsg := "正在运行命令 (" ++ architecture ++ "): " ++ resolved.getD "undefined"
  let execMsg :=
    match childLifecycle res with
    | Except.ok m => m
    | Except.error m => m
  Except.ok [runningMsg, execMsg, waitEnterPrompt]

/-! ## uiHandler.js — the architecture picker -/

/-- A terminal selection emitted by `UIHandler.selectWithArrowKeys`
(uiHandler.js): a menu-item id (enter on the cursor), `q` (left arrow),
`m` (right arrow), `p`, `t` (fallback-mode token), or `null`. -/
inductive PickerSel where
  | item (n : Int)
  | keyQ
  | keyM
  | keyP
  | keyT
  | nullSel
deriving DecidableEq

/-- A terminal outcome of `UIHandler.architecturePickerWithArrows`: a chosen
architecture value, or one of the two cancellation signals it throws
(`BACK_TO_PARENT_MENU` for `q`, `BACK_TO_MAIN_MENU` for `m`). -/
inductive PickerOutcome where
  | value (v : String)
  | backToParent
  | backToMain
deriving DecidableEq

/-- One step of `architecturePickerWithArrows` (uiHandler.js lines 187-204):
either a terminal outcome, or a retry (the function calls itself again). -/
inductive PickerStep where
  | done (o : PickerOutcome)
  | retry
deriving DecidableEq

/-- The dispatch on the selection in `architecturePickerWithArrows`
(uiHandler.js lines 187-204) over options `(id, value)`: a truthy non-control
id is looked up among the options (found → its value, not found → retry via
the trailing recursive call); `q` throws `BACK_TO_PARENT_MENU`, `m` throws
`BACK_TO_MAIN_MENU`; `t`, `p` and `null` fall through to the recursive call
(`p` is truthy and not excluded by the first guard, so with integer option
ids it reaches the failed lookup, never the dead `else if` for `p`). -/
def archPickerStep (options : List (Int × String)) : PickerSel → PickerStep
  | PickerSel.item n =>
    match options.find? (fun o => o.1 == n) with
    | some o => PickerStep.done (PickerOutcome.value o.2)
    | none => PickerStep.retry
  | PickerSel.keyQ => PickerStep.done PickerOutcome.backToParent
  | PickerSel.keyM => PickerStep.done PickerOutcome.backToMain
  | PickerSel.keyP => PickerStep.retry
  | PickerSel.keyT => PickerStep.retry
  | PickerSel.nullSel => PickerStep.retry

/-! ## applicationController.js -/

/-- Result of `ApplicationController.handleUserChoice`: the stack afterwards,
the `executeTool` invocation if one happened (its `path` argument and the
selected architecture), and whether the invalid-selection message was
printed. -/
structure ChoiceResult where
  stack : List String
  executed : Option (Option ToolPath × String)
  invalid : Bool
deriving DecidableEq

/-- `ApplicationController.handleUserChoice` (applicationController.js lines
35-95), as a function of the menu tree, the stack, the chosen id, whether
`settings.arch_picker` is truthy, the terminal picker outcome (consulted only
when the picker is enabled), and the system architecture. A missing item
reports invalid selection; a submenu item pushes its submenu id
unconditionally; an executable item runs the picker sub-flow (its two
cancellation signals skip the executor; a falsy chosen value keeps the
system architecture) and then invokes the executor; `back` pops; `main`
resets; an unknown type only reports. -/
def handleUserChoice (tree : MenuTree) (stack : List String) (choice : Int)
    (archPicker : Bool) (picker : PickerOutcome) (sysArch : String) : ChoiceResult :=
  let item? :=
    match getCurrentMenu stack with
    | none => none
    | some mid => getMenuItem tree mid choice
  match item? with
  | none => ⟨stack, none, true⟩
  | some item =>
    if item.itemType = "submenu" then
      ⟨setCurrentMenu stack (item.submenu.getD "undefined"), none, false⟩
    else if item.itemType = "executable" then
      if archPicker then
        match picker with
        | PickerOutcome.backToParent => ⟨stack, none, false⟩
        | PickerOutcome.backToMain => ⟨goToMainMenu, none, false⟩
        | PickerOutcome.value v =>
          ⟨stack, some (item.path, if v = "" then sysArch else v), false⟩
      else
        ⟨stack, some (item.path, sysArch), false⟩
    else if item.itemType = "back" then
      ⟨(goBack stack).2, none, false⟩
    else if item.itemType = "main" then
      ⟨goToMainMenu, none, false⟩
    else
      ⟨stack, none, false⟩

/-- What one iteration of the numeric-mode input loop in
`ApplicationController.showCurrentMenu` does with the read line. -/
inductive LoopReport where
  | navigated
  | switchPackage
  | emptyInput
  | notANumber
  | invalidSelection
  | dispatched
deriving DecidableEq

/-- The classification steps of the numeric-mode loop body
(applicationController.js lines 141-169) on the trimmed answer:
`handleNavigationCommand` first, then the `p` package-switch check, then the
blank check (`输入不能为空`), then `parseInt` (`输入无效，请输入一个数字`),
else a numeric choice. -/
def numericStep (answer : String) (stack : List String) :
    Sum (LoopReport × List String) Int :=
  match handleNavigationCommand answer stack with
  | (true, navStack) => Sum.inl (LoopReport.navigated, navStack)
  | (false, _) =>
    if jsToLower answer = "p" then Sum.inl (LoopReport.switchPackage, stack)
    else if answer = "" then Sum.inl (LoopReport.emptyInput, stack)
    else
      match jsParseInt answer with
      | none => Sum.inl (LoopReport.notANumber, stack)
      | some n => Sum.inr n

/-- One full numeric-mode loop iteration (applicationController.js lines
116-204): the raw line is trimmed at the `readline` callback, classified by
`numericStep`, and a numeric choice is dispatched through
`handleUserChoice`. Every branch other than a successful dispatch re-enters
the loop (`continue`), re-rendering the menu and prompting again. -/
def numericIteration (rawInput : String) (tree : MenuTree) (stack : List String)
    (archPicker : Bool) (picker : PickerOutcome) (sysArch : String) :
    LoopReport × List String :=
  let answer := jsTrim rawInput
  match numericStep answer stack with
  | Sum.inl r => r
  | Sum.inr n =>
    let r := handleUserChoice tree stack n archPicker picker sysArch
    (if r.invalid then LoopReport.invalidSelection else LoopReport.dispatched, r.stack)

/-! ## Spec-literal path resolution (for the refinement comparison)

`specResolvePath` follows the words of the specification: resolve in priority
order by *presence* of an entry (exact match on the requested tag, then
`X86_64`, then the first-declared entry), with no truthiness filtering. -/

/-- The path-resolution priority order exactly as the specification words it:
the entry for the requested tag if present, else the `X86_64` entry if
present, else the first-declared entry. -/
def specResolvePath (toolPath : ToolPath) (architecture : String) : Option String :=
  match toolPath with
  | Sum.inl s => some s
  | Sum.inr m =>
    match jsLookup m architecture with
    | some v => some v
    | none =>
      match jsLookup m "X86_64" with
      | some v => some v
      | none => m.head?.map (fun p => p.2)

/-! ## Helper lemmas -/

lemma jsTruthy_some_of_ne (v : String) (h : v ≠ "") : jsTruthy (some v) = true := by
  simp [jsTruthy, h]

lemma jsTruthy_some_empty : jsTruthy (some "") = false := by
  simp [jsTruthy]

lemma jsTruthy_none : jsTruthy (none : Option String) = false := rfl

lemma jsOrElse_of_truthy (a b : Option String) (h : jsTruthy a = true) :
    jsOrElse a b = a := by
  simp [jsOrElse, h]

lemma jsOrElse_of_falsy (a b : Option String) (h : jsTruthy a = false) :
    jsOrElse a b = b := by
  simp [jsOrElse, h]

/-- Evaluate the mapping case of `resolvePath` past a falsy exact match. -/
lemma resolvePath_falsy_exact (m : List (String × String)) (arch : String)
    (h : jsTruthy (jsLookup m arch) = false) :
    resolvePath (Sum.inr m) arch =
      jsOrElse (jsLookup m "X86_64") (m.head?.map (fun p => p.2)) := by
  simp [resolvePath, jsOrElse_of_falsy _ _ h]

lemma jsTruthy_false_of_eq (o : Option String) (h : o = none ∨ o = some "") :
    jsTruthy o = false := by
  rcases h with rfl | rfl
  · rfl
  · exact jsTruthy_some_empty

/-- The full case analysis of the resolution chain
`exact match || X86_64 || first declared`, filtering on JS truthiness. -/
lemma resolvePath_priority (m : List (String × String)) (arch : String) :
    (∀ v, jsLookup m arch = some v → v ≠ "" →
      resolvePath (Sum.inr m) arch = some v) ∧
    ((jsLookup m arch = none ∨ jsLookup m arch = some "") →
      ∀ v, jsLookup m "X86_64" = some v → v ≠ "" →
        resolvePath (Sum.inr m) arch = some v) ∧
    ((jsLookup m arch = none ∨ jsLookup m arch = some "") →
      (jsLookup m "X86_64" = none ∨ jsLookup m "X86_64" = some "") →
      resolvePath (Sum.inr m) arch = m.head?.map (fun p => p.2)) := by
  refine ⟨?_, ?_, ?_⟩
  · intro v hv hne
    rw [show resolvePath (Sum.inr m) arch =
        jsOrElse (jsLookup m arch) (jsOrElse (jsLookup m "X86_64")
          (m.head?.map (fun p => p.2))) from rfl,
      hv, jsOrElse_of_truthy _ _ (jsTruthy_some_of_ne v hne)]
  · intro hx v hv hne
    rw [resolvePath_falsy_exact m arch (jsTruthy_false_of_eq _ hx), hv,
      jsOrElse_of_truthy _ _ (jsTruthy_some_of_ne v hne)]
  · intro hx hy
    rw [resolvePath_falsy_exact m arch (jsTruthy_false_of_eq _ hx)]
    exact jsOrElse_of_falsy _ _ (jsTruthy_false_of_eq _ hy)

/-! ## C1 — architecture path resolution -/

/-- C1 counterexample: for the mapping with `X86` bound to the empty string
and `X86_64` bound to `"b"`, the requested tag `X86` has an exactly matching
entry, yet the code resolves to `"b"` while the claimed priority order
(`specResolvePath`) resolves to the empty string. -/
theorem c1_counterexample :
    resolvePath (Sum.inr [("X86", ""), ("X86_64", "b")]) "X86" = some "b" ∧
    specResolvePath (Sum.inr [("X86", ""), ("X86_64", "b")]) "X86" = some "" ∧
    (some "b" : Option String) ≠ some "" := by
  refine ⟨by decide, by decide, by decide⟩

/-- C1 (amended): a single-string path is used verbatim; for a mapping the
resolution priority is the exactly matching entry when present and
non-empty, else the `X86_64` entry when present and non-empty, else the
first-declared entry; in particular the two concrete examples of the claim
hold. -/
theorem c1_path_resolution (m : List (String × String)) (arch s : String) :
    resolvePath (Sum.inl s) arch = some s ∧
    (∀ v, jsLookup m arch = some v → v ≠ "" →
      resolvePath (Sum.inr m) arch = some v) ∧
    ((jsLookup m arch = none ∨ jsLookup m arch = some "") →
      ∀ v, jsLookup m "X86_64" = some v → v ≠ "" →
        resolvePath (Sum.inr m) arch = some v) ∧
    ((jsLookup m arch = none ∨ jsLookup m arch = some "") →
      (jsLookup m "X86_64" = none ∨ jsLookup m "X86_64" = some "") →
      resolvePath (Sum.inr m) arch = m.head?.map (fun p => p.2)) ∧
    resolvePath (Sum.inr [("ARM64", "a"), ("X86_64", "b")]) "X86" = some "b" ∧
    resolvePath (Sum.inr [("ARM64", "a")]) "X86_64" = some "a" := by
  obtain ⟨h1, h2, h3⟩ := resolvePath_priority m arch
  exact ⟨rfl, h1, h2, h3, by decide, by decide⟩

/-- C1 witness: the amended theorem applied at the concrete mapping
`[(ARM64, a), (X86_64, b)]` with requested tag `X86`. -/
theorem c1_path_resolution_witness :
    jsLookup [("ARM64", "a"), ("X86_64", "b")] "X86" = none ∧
    resolvePath (Sum.inr [("ARM64", "a"), ("X86_64", "b")]) "X86" = some "b" :=
  ⟨by decide,
    ((c1_path_resolution [("ARM64", "a"), ("X86_64", "b")] "X86" "").2.2.1
      (Or.inl (by decide)) "b" (by decide) (by decide))⟩

/-! ## C10 — falsy mapping entries are skipped -/

/-- C10: a mapping entry that is present but bound to the empty string is
skipped as if absent: with an empty exact match, resolution falls through to
a present non-empty `X86_64` entry, and past an absent or empty `X86_64`
entry to the first-declared entry. -/
theorem c10_falsy_entries_skipped (m : List (String × String)) (arch : String) :
    (jsLookup m arch = some "" →
      (∀ v, jsLookup m "X86_64" = some v → v ≠ "" →
        resolvePath (Sum.inr m) arch = some v) ∧
      ((jsLookup m "X86_64" = none ∨ jsLookup m "X86_64" = some "") →
        resolvePath (Sum.inr m) arch = m.head?.map (fun p => p.2))) ∧
    (jsLookup m arch = none → jsLookup m "X86_64" = some "" →
      resolvePath (Sum.inr m) arch = m.head?.map (fun p => p.2)) := by
  obtain ⟨-, h2, h3⟩ := resolvePath_priority m arch
  exact ⟨fun h => ⟨fun v hv hne => h2 (Or.inr h) v hv hne, fun hy => h3 (Or.inr h) hy⟩,
    fun h hy => h3 (Or.inl h) (Or.inr hy)⟩

/-- C10 witness: with `X86` bound to the empty string and `X86_64` bound to
`"b"`, requesting `X86` resolves to `"b"`, not to the empty string. -/
theorem c10_falsy_entries_skipped_witness :
    resolvePath (Sum.inr [("X86", ""), ("X86_64", "b")]) "X86" = some "b" :=
  ((c10_falsy_entries_skipped [("X86", ""), ("X86_64", "b")] "X86").1
    (by decide)).1 "b" (by decide) (by decide)

/-! ## C3 — the Architecture Resolver -/

/-- C3 counterexample: on an unrecognized platform architecture string the
resolver returns the string `Unknown Architecture(未知系统架构)`, which is
not the tag `Unknown` and lies outside the claimed closed enumeration. -/
theorem c3_counterexample :
    getSystemArchitecture "mips" = "Unknown Architecture(未知系统架构)" ∧
    getSystemArchitecture "mips" ∉
      (["X86_64", "X86", "ARM64", "ARM32", "Unknown"] : List String) := by
  exact ⟨rfl, by decide⟩

/-- C3 (amended): the resolver is a total function returning exactly one of
the five strings `X86_64`, `X86`, `ARM64`, `ARM32`,
`Unknown Architecture(未知系统架构)`; for any platform architecture string
outside the recognized set it returns the fallback string
`Unknown Architecture(未知系统架构)`, not the tag `Unknown`. -/
theorem c3_architecture_resolver (arch : String) :
    getSystemArchitecture arch ∈
      (["X86_64", "X86", "ARM64", "ARM32",
        "Unknown Architecture(未知系统架构)"] : List String) ∧
    (arch ∉ (["arm64", "aarch64", "arm", "armv7l", "ia32", "x64", "amd64"] :
        List String) →
      getSystemArchitecture arch = "Unknown Architecture(未知系统架构)") := by
  constructor
  · unfold getSystemArchitecture
    split_ifs <;> simp
  · intro h
    simp only [List.mem_cons, List.not_mem_nil, or_false, not_or] at h
    obtain ⟨h1, h2, h3, h4, h5, h6, h7⟩ := h
    unfold getSystemArchitecture
    rw [if_neg (by rintro (rfl | rfl) <;> simp_all),
      if_neg (by rintro (rfl | rfl) <;> simp_all), if_neg h5,
      if_neg (by rintro (rfl | rfl) <;> simp_all)]

/-- C3 witness: the amended theorem applied at the unrecognized platform
string `mips`. -/
theorem c3_architecture_resolver_witness :
    getSystemArchitecture "mips" ∈
      (["X86_64", "X86", "ARM64", "ARM32",
        "Unknown Architecture(未知系统架构)"] : List String) ∧
    getSystemArchitecture "mips" = "Unknown Architecture(未知系统架构)" :=
  ⟨(c3_architecture_resolver "mips").1,
    (c3_architecture_resolver "mips").2 (by decide)⟩

/-! ## C4 — the navigation-stack invariant -/

lemma navStep_preserves (s : List String) (op : NavOp)
    (hne : s ≠ []) (hh : s.head? = some "main") :
    navStep s op ≠ [] ∧ (navStep s op).head? = some "main" := by
  obtain ⟨a, t, rfl⟩ := List.exists_cons_of_ne_nil hne
  have ha : a = "main" := by simpa using hh
  subst ha
  cases op with
  | push menuId =>
    simp [navStep, setCurrentMenu]
  | back =>
    by_cases hl : 1 < ("main" :: t).length
    · obtain ⟨b, u, rfl⟩ : ∃ b u, t = b :: u := by
        cases t with
        | nil => simp at hl
        | cons b u => exact ⟨b, u, rfl⟩
      simp [navStep, goBack, hl, List.dropLast]
    · have ht : t = [] := by
        cases t with
        | nil => rfl
        | cons b u => exact absurd (by simp) hl
      subst ht
      simp [navStep, goBack]
  | home =>
    simp [navStep, goToMainMenu]

lemma runNavOps_aux (ops : List NavOp) :
    ∀ s : List String, s ≠ [] → s.head? = some "main" →
      ops.foldl navStep s ≠ [] ∧ (ops.foldl navStep s).head? = some "main" := by
  induction ops with
  | nil => intro s hne hh; exact ⟨hne, hh⟩
  | cons op rest ih =>
    intro s hne hh
    obtain ⟨hne2, hh2⟩ := navStep_preserves s op hne hh
    simpa using ih (navStep s op) hne2 hh2

/-- C4: for every sequence of navigation operations (push on submenu, back,
home) applied from the initial stack, the NavigationStack is never empty and
its bottom element is always the root menu id `main`; the only mutations are
push (`setCurrentMenu`), pop blocked at size 1 (`goBack`) and reset-to-root
(`goToMainMenu`), which are exactly the constructors of `NavOp`. -/
theorem c4_stack_invariant (ops : List NavOp) :
    runNavOps ops ≠ [] ∧ (runNavOps ops).head? = some "main" :=
  runNavOps_aux ops ["main"] (by simp) rfl

/-- C4 witness: the invariant theorem applied to a concrete operation
sequence. -/
theorem c4_stack_invariant_witness :
    runNavOps [NavOp.push "gpu", NavOp.push "deep", NavOp.back, NavOp.home,
      NavOp.back] ≠ [] ∧
    (runNavOps [NavOp.push "gpu", NavOp.push "deep", NavOp.back, NavOp.home,
      NavOp.back]).head? = some "main" :=
  c4_stack_invariant [NavOp.push "gpu", NavOp.push "deep", NavOp.back,
    NavOp.home, NavOp.back]

/-! ## C5 — back pops exactly one level -/

/-- C5: on a NavigationStack (bottom element `main`) of depth at least 2,
the back command pops exactly one level — the numeric-mode `b` command and
the interactive-mode left-arrow path (which calls `goBack` directly) both
leave `s.dropLast`, one element shorter with all remaining elements
unchanged; at depth 1 back is a no-op with identical stack contents before
and after on both paths. -/
theorem c5_back_pops (s : List String) (hmain : s.head? = some "main") :
    (2 ≤ s.length →
      handleNavigationCommand "b" s = (true, s.dropLast) ∧
      goBack s = (true, s.dropLast) ∧
      s.dropLast.length + 1 = s.length) ∧
    (s.length = 1 →
      handleNavigationCommand "b" s = (true, s) ∧
      goBack s = (false, s)) := by
  constructor
  · intro h2
    have hl : 1 < s.length := h2
    have hgb : goBack s = (true, s.dropLast) := by simp [goBack, hl]
    have htl : jsToLower "b" = "b" := rfl
    refine ⟨?_, hgb, ?_⟩
    · simp [handleNavigationCommand, htl, hgb]
    · have := s.length_dropLast
      omega
  · intro h1
    have hs : s = ["main"] := by
      cases s with
      | nil => simp at h1
      | cons a t =>
        have ha : a = "main" := by simpa using hmain
        have ht : t = [] := by simpa using h1
        simp [ha, ht]
    subst hs
    exact ⟨by decide, by decide⟩

/-- C5 witness: the theorem applied at the depth-2 stack `[main, gpu]` and at
the depth-1 stack `[main]`. -/
theorem c5_back_pops_witness :
    (handleNavigationCommand "b" ["main", "gpu"] =
      (true, (["main", "gpu"] : List String).dropLast) ∧
      goBack ["main", "gpu"] = (true, (["main", "gpu"] : List String).dropLast)) ∧
    (handleNavigationCommand "b" ["main"] = (true, ["main"]) ∧
      goBack ["main"] = (false, ["main"])) :=
  ⟨⟨((c5_back_pops ["main", "gpu"] rfl).1 (by decide)).1,
      ((c5_back_pops ["main", "gpu"] rfl).1 (by decide)).2.1⟩,
    (c5_back_pops ["main"] rfl).2 rfl⟩

/-! ## C6 — home resets to the root -/

/-- C6: from a NavigationStack of any depth, the home command resets the
stack to exactly the one-element sequence `[main]`: `goToMainMenu` (also
invoked directly on the interactive-mode right-arrow path) yields `[main]`,
and the numeric-mode `m` command goes through it. -/
theorem c6_home_resets (s : List String) :
    goToMainMenu = ["main"] ∧
    handleNavigationCommand "m" s = (true, ["main"]) := by
  refine ⟨rfl, ?_⟩
  unfold handleNavigationCommand
  rw [if_neg (by decide), if_pos (by decide)]
  rfl

/-- C6 witness: the theorem applied at a concrete depth-3 stack. -/
theorem c6_home_resets_witness :
    handleNavigationCommand "m" ["main", "gpu", "deep"] = (true, ["main"]) :=
  (c6_home_resets ["main", "gpu", "deep"]).2

/-! ## C2 — selecting a submenu item whose submenu id is missing -/

/-- C2 counterexample: in a tree whose only menu is `main` with a submenu
item referencing the non-existent menu `ghost`, selecting that item pushes
`ghost` onto the NavigationStack — the stack changes, contradicting the
claim that it stays unchanged. -/
theorem c2_counterexample :
    (handleUserChoice
        [("main", ⟨"Main", none, [⟨1, "submenu", some "ghost", none⟩]⟩)]
        ["main"] 1 false PickerOutcome.backToParent "X86_64").stack =
      ["main", "ghost"] ∧
    treeLookup [("main", ⟨"Main", none, [⟨1, "submenu", some "ghost", none⟩]⟩)]
      "ghost" = none ∧
    (["main", "ghost"] : List String) ≠ ["main"] :=
  ⟨by decide, by decide, by decide⟩

/-- C2 (amended): selecting a submenu-type item pushes its referenced
submenu id onto the NavigationStack unconditionally, with no existence
check, so a missing submenu id IS pushed (and the Tool Executor is not
invoked); the malformed tree is reported only when the pushed menu is next
displayed, where the display routine reports the missing menu and yields no
selection. -/
theorem c2_missing_submenu (tree : MenuTree) (stack : List String) (choice : Int)
    (archPicker : Bool) (picker : PickerOutcome) (sysArch : String)
    (mid sub : String) (item : MenuItem)
    (hcur : getCurrentMenu stack = some mid)
    (hitem : getMenuItem tree mid choice = some item)
    (htype : item.itemType = "submenu")
    (hsub : item.submenu = some sub) :
    (handleUserChoice tree stack choice archPicker picker sysArch).stack =
      stack ++ [sub] ∧
    (handleUserChoice tree stack choice archPicker picker sysArch).executed =
      none ∧
    (treeLookup tree sub = none → displayInteractiveMenu tree sub = none) := by
  refine ⟨?_, ?_, fun h => by simp [displayInteractiveMenu, h]⟩ <;>
    simp [handleUserChoice, hcur, hitem, htype, hsub, setCurrentMenu]

/-- C2 witness: the amended theorem applied at the `ghost` tree. -/
theorem c2_missing_submenu_witness :
    (handleUserChoice
        [("main", ⟨"Main", none, [⟨1, "submenu", some "ghost", none⟩]⟩)]
        ["main"] 1 false PickerOutcome.backToParent "X86_64").stack =
      ["main"] ++ ["ghost"] ∧
    displayInteractiveMenu
      [("main", ⟨"Main", none, [⟨1, "submenu", some "ghost", none⟩]⟩)]
      "ghost" = none :=
  have h := c2_missing_submenu
    [("main", ⟨"Main", none, [⟨1, "submenu", some "ghost", none⟩]⟩)]
    ["main"] 1 false PickerOutcome.backToParent "X86_64" "main" "ghost"
    ⟨1, "submenu", some "ghost", none⟩ rfl rfl rfl rfl
  ⟨h.1, h.2.2 rfl⟩

/-! ## C7 — numeric-strategy input errors -/

/-- C7: in the numeric selection strategy, after interception of the global
command tokens `b`, `m` and `p`, a blank (after trimming) input yields the
empty-input error, an input `parseInt` cannot parse yields the
not-a-number error, and an integer input with no matching item id in the
current menu yields the invalid-selection report; all three re-enter the
prompt loop with the NavigationStack unchanged. -/
theorem c7_numeric_errors (rawInput : String) (tree : MenuTree)
    (stack : List String) (archPicker : Bool) (picker : PickerOutcome)
    (sysArch : String)
    (hb : jsToLower (jsTrim rawInput) ≠ "b")
    (hm : jsToLower (jsTrim rawInput) ≠ "m")
    (hp : jsToLower (jsTrim rawInput) ≠ "p") :
    (jsTrim rawInput = "" →
      numericIteration rawInput tree stack archPicker picker sysArch =
        (LoopReport.emptyInput, stack)) ∧
    (jsParseInt (jsTrim rawInput) = none → jsTrim rawInput ≠ "" →
      numericIteration rawInput tree stack archPicker picker sysArch =
        (LoopReport.notANumber, stack)) ∧
    (∀ n mid, jsParseInt (jsTrim rawInput) = some n →
      getCurrentMenu stack = some mid →
      getMenuItem tree mid n = none →
      numericIteration rawInput tree stack archPicker picker sysArch =
        (LoopReport.invalidSelection, stack)) := by
  have hnav : handleNavigationCommand (jsTrim rawInput) stack = (false, stack) := by
    unfold handleNavigationCommand
    rw [if_neg hb, if_neg hm, if_neg hp]
  have hstep : numericStep (jsTrim rawInput) stack =
      (if jsTrim rawInput = "" then Sum.inl (LoopReport.emptyInput, stack)
        else
          match jsParseInt (jsTrim rawInput) with
          | none => Sum.inl (LoopReport.notANumber, stack)
          | some n => Sum.inr n) := by
    unfold numericStep
    rw [hnav, if_neg hp]
  refine ⟨?_, ?_, ?_⟩
  · intro he
    rw [he] at hstep
    unfold numericIteration
    simp [hstep, he]
  · intro hnan hne
    unfold numericIteration
    simp [hstep, hne, hnan]
  · intro n mid hsome hcur hnone
    have hne : jsTrim rawInput ≠ "" := by
      intro h
      rw [h] at hsome
      exact Option.noConfusion ((rfl : jsParseInt "" = none) ▸ hsome)
    unfold numericIteration
    simp [hstep, hne, hsome, handleUserChoice, hcur, hnone]

/-- C7 witness: the three concrete inputs of the claim against a menu with a
single item of id 1: blank input, `abc`, and `3` (no item with id 3). -/
theorem c7_numeric_errors_witness :
    numericIteration "" [("main", ⟨"Main", none, [⟨1, "back", none, none⟩]⟩)]
      ["main"] false PickerOutcome.backToParent "X86_64" =
      (LoopReport.emptyInput, ["main"]) ∧
    numericIteration "abc" [("main", ⟨"Main", none, [⟨1, "back", none, none⟩]⟩)]
      ["main"] false PickerOutcome.backToParent "X86_64" =
      (LoopReport.notANumber, ["main"]) ∧
    numericIteration "3" [("main", ⟨"Main", none, [⟨1, "back", none, none⟩]⟩)]
      ["main"] false PickerOutcome.backToParent "X86_64" =
      (LoopReport.invalidSelection, ["main"]) :=
  ⟨(c7_numeric_errors "" _ ["main"] false PickerOutcome.backToParent "X86_64"
      (by decide) (by decide) (by decide)).1 rfl,
    (c7_numeric_errors "abc" _ ["main"] false PickerOutcome.backToParent "X86_64"
      (by decide) (by decide) (by decide)).2.1 rfl (by decide),
    (c7_numeric_errors "3" _ ["main"] false PickerOutcome.backToParent "X86_64"
      (by decide) (by decide) (by decide)).2.2 3 "main" (by decide) rfl
      (by decide)⟩

/-! ## C8 — architecture-picker cancellation -/

/-- C8: when the architecture-picker sub-flow is entered during dispatch of
an executable item, the left-arrow selection maps to the back-to-parent
signal and the right-arrow selection to the back-to-main signal; back
returns to the calling menu with the NavigationStack unaltered, home resets
the NavigationStack to exactly the root, and in both cases the Tool
Executor is not invoked. -/
theorem c8_picker_cancellation (tree : MenuTree) (stack : List String)
    (choice : Int) (sysArch : String) (options : List (Int × String))
    (mid : String) (item : MenuItem)
    (hcur : getCurrentMenu stack = some mid)
    (hitem : getMenuItem tree mid choice = some item)
    (htype : item.itemType = "executable") :
    archPickerStep options PickerSel.keyQ =
      PickerStep.done PickerOutcome.backToParent ∧
    handleUserChoice tree stack choice true PickerOutcome.backToParent sysArch =
      ⟨stack, none, false⟩ ∧
    archPickerStep options PickerSel.keyM =
      PickerStep.done PickerOutcome.backToMain ∧
    handleUserChoice tree stack choice true PickerOutcome.backToMain sysArch =
      ⟨["main"], none, false⟩ := by
  refine ⟨rfl, ?_, rfl, ?_⟩ <;>
    simp [handleUserChoice, hcur, hitem, htype, goToMainMenu]

/-- C8 witness: the theorem applied to a concrete tree with one executable
item, reached at stack `[main, gpu]`. -/
theorem c8_picker_cancellation_witness :
    handleUserChoice
      [("gpu", ⟨"GPU", some "main",
        [⟨1, "executable", none, some (Sum.inl "furmark")⟩]⟩)]
      ["main", "gpu"] 1 true PickerOutcome.backToParent "X86_64" =
      ⟨["main", "gpu"], none, false⟩ ∧
    handleUserChoice
      [("gpu", ⟨"GPU", some "main",
        [⟨1, "executable", none, some (Sum.inl "furmark")⟩]⟩)]
      ["main", "gpu"] 1 true PickerOutcome.backToMain "X86_64" =
      ⟨["main"], none, false⟩ :=
  have h := c8_picker_cancellation
    [("gpu", ⟨"GPU", some "main",
      [⟨1, "executable", none, some (Sum.inl "furmark")⟩]⟩)]
    ["main", "gpu"] 1 "X86_64" [] "gpu"
    ⟨1, "executable", none, some (Sum.inl "furmark")⟩ rfl rfl rfl
  ⟨h.2.1, h.2.2.2⟩

/-! ## C9 — the tool-execution boundary -/

/-- C9: `executeTool` always returns control normally (`Except.ok`) with the
acknowledgement prompt as its last console message before the menu redraws;
a non-zero exit code and a process-spawn failure are each reported in the
console log but never propagated as a failure. -/
theorem c9_executor_never_fails (toolPath : ToolPath) (arch : Option String)
    (sysArch : String) (res : SpawnResult) :
    (∃ logs, executeTool toolPath arch sysArch res = Except.ok logs ∧
      logs.getLast? = some waitEnterPrompt) ∧
    (∀ code, res = SpawnResult.exited code → code ≠ 0 →
      ∃ logs, executeTool toolPath arch sysArch res = Except.ok logs ∧
        ("命令执行结束，返回码：" ++ toString code) ∈ logs ∧
        logs.getLast? = some waitEnterPrompt) ∧
    (∀ msg, res = SpawnResult.spawnError msg →
      ∃ logs, executeTool toolPath arch sysArch res = Except.ok logs ∧
        ("执行命令时出错：" ++ msg) ∈ logs ∧
        logs.getLast? = some waitEnterPrompt) := by
  refine ⟨⟨_, rfl, rfl⟩, ?_, ?_⟩
  · rintro code rfl hc
    refine ⟨_, rfl, ?_, rfl⟩
    simp [executeTool, childLifecycle, hc]
  · rintro msg rfl
    refine ⟨_, rfl, ?_, rfl⟩
    simp [executeTool, childLifecycle]

/-- C9 witness: the theorem applied at a plain path with exit code 1 and
with a spawn error. -/
theorem c9_executor_never_fails_witness :
    (∃ logs, executeTool (Sum.inl "furmark") none "X86_64"
        (SpawnResult.exited 1) = Except.ok logs ∧
      ("命令执行结束，返回码：" ++ toString (1 : Int)) ∈ logs ∧
      logs.getLast? = some waitEnterPrompt) ∧
    (∃ logs, executeTool (Sum.inl "furmark") none "X86_64"
        (SpawnResult.spawnError "ENOENT") = Except.ok logs ∧
      ("执行命令时出错：" ++ "ENOENT") ∈ logs ∧
      logs.getLast? = some waitEnterPrompt) :=
  ⟨(c9_executor_never_fails (Sum.inl "furmark") none "X86_64"
      (SpawnResult.exited 1)).2.1 1 rfl (by decide),
    (c9_executor_never_fails (Sum.inl "furmark") none "X86_64"
      (SpawnResult.spawnError "ENOENT")).2.2 "ENOENT" rfl⟩

end Utf
